import Mathlib

/-!
Verification development for the Plot Record Service (src/api/main.py):
a FastAPI CRUD service over a single `plots` table.  The data model and
every endpoint are shallowly embedded below; machine state is the table
contents plus the primary-key generator.  SQL `ILIKE` is modelled with
its wildcard semantics (`%`, `_`, escape `\`) over lower-cased text.
-/

namespace NovelSite

/-- Row of the `plots` table (SQLAlchemy `PlotModel`): id, title, work,
status, summary (nullable). -/
structure PlotModel where
  id : Int
  title : String
  work : String
  status : String
  summary : Option String
  deriving DecidableEq

/-- Request body for create and update (pydantic `PlotCreate`):
title, work, status required, summary optional (defaults to null). -/
structure PlotCreate where
  title : String
  work : String
  status : String
  summary : Option String
  deriving DecidableEq

/-- Database state: stored rows plus the serial primary-key counter. -/
structure DB where
  rows : List PlotModel
  nextId : Int
  deriving DecidableEq

/-- Errors a handler can surface: `HTTPException`(status, detail) raised
explicitly, or an unhandled Python `NameError` (HTTP 500). -/
inductive ApiError where
  | httpException (statusCode : Nat) (detail : String)
  | nameError (varName : String)
  deriving DecidableEq

/-- The one domain error: `HTTPException(status_code=404, detail="Plot not found")`. -/
def notFound : ApiError := ApiError.httpException 404 ("Plot not found")

/-- Python truthiness of an `Optional[str]`: `None` and `""` are falsy.
This is the condition of the three filter guards in `list_plots`. -/
def truthy : Option String → Bool
  | none => false
  | some s => !s.isEmpty

/-- Helper for the `%` wildcard: does any suffix of the text satisfy `f`. -/
def matchStar (f : List Char → Bool) : List Char → Bool
  | [] => f []
  | c :: s => f (c :: s) || matchStar f s

/-- SQL LIKE pattern matching (PostgreSQL): `%` matches any sequence,
`_` matches any single character, `\` escapes the next pattern
character; every other character matches itself.  A trailing lone `\`
is an error in PostgreSQL and can never arise from the `%...%` patterns
built by `list_plots`; it is rendered as no-match. -/
def likeMatch : List Char → List Char → Bool
  | [], s => s.isEmpty
  | c :: p, s =>
    if c = '%' then
      matchStar (likeMatch p) s
    else if c = '_' then
      match s with
      | [] => false
      | _ :: s2 => likeMatch p s2
    else if c = '\\' then
      match p with
      | [] => false
      | e :: p2 =>
        match s with
        | [] => false
        | c2 :: s2 => c2 == e && likeMatch p2 s2
    else
      match s with
      | [] => false
      | c2 :: s2 => c2 == c && likeMatch p s2

/-- Lower-case a character list (ASCII, as both `lower()` in PostgreSQL
on ASCII input and `Char.toLower` act). -/
def lowerChars (l : List Char) : List Char := l.map Char.toLower

/-- `column ILIKE pattern`: case-insensitive LIKE. -/
def ilike (s pattern : String) : Bool :=
  likeMatch (lowerChars pattern.data) (lowerChars s.data)

/-- `ILIKE` applied to a nullable column: SQL `NULL ILIKE p` is `NULL`,
which is falsy in a `WHERE` clause, so a null summary never matches. -/
def ilikeOpt : Option String → String → Bool
  | none, _ => false
  | some s, pattern => ilike s pattern

/-- `query.order_by(PlotModel.id.asc()).all()`: sort rows ascending by id. -/
def sortById (l : List PlotModel) : List PlotModel :=
  List.insertionSort (fun a b => a.id ≤ b.id) l

/-- The WHERE clause built by `list_plots`: each of the three filters is
added only when its parameter is truthy (present and nonempty). -/
def filteredRows (work status q : Option String) (db : DB) : List PlotModel :=
  let rows0 := db.rows
  let rows1 := if truthy work then rows0.filter (fun r => r.work == work.getD ("")) else rows0
  let rows2 := if truthy status then rows1.filter (fun r => r.status == status.getD ("")) else rows1
  let like := ("%") ++ q.getD ("") ++ ("%")
  if truthy q then
    rows2.filter (fun r => ilike r.title like || ilikeOpt r.summary like)
  else rows2

/-- `GET /plots`: filter per the three optional parameters, return rows
sorted ascending by id.  Reads do not change the database. -/
def list_plots (work status q : Option String) (db : DB) : DB × List PlotModel :=
  (db, sortById (filteredRows work status q db))

/-- `GET /plots/{plot_id}`: first row with the given id, else 404. -/
def get_plot (plot_id : Int) (db : DB) : DB × Except ApiError PlotModel :=
  match db.rows.find? (fun r => r.id == plot_id) with
  | none => (db, Except.error notFound)
  | some plot => (db, Except.ok plot)

/-- `POST /plots`: insert a row with the server-assigned serial id and
commit; then the handler executes `return plotF`, a reference to an
undefined name, which raises `NameError` instead of returning the
freshly created record. -/
def create_plot (data : PlotCreate) (db : DB) : DB × Except ApiError PlotModel :=
  let plot : PlotModel := ⟨db.nextId, data.title, data.work, data.status, data.summary⟩
  let db2 : DB := ⟨db.rows ++ [plot], db.nextId + 1⟩
  (db2, Except.error (ApiError.nameError ("plotF")))

/-- Replace the first row carrying the given id (the row `update_plot`
fetched and mutated in place); other rows are untouched. -/
def replaceFirst (plot_id : Int) (r2 : PlotModel) : List PlotModel → List PlotModel
  | [] => []
  | r :: rs => if r.id = plot_id then r2 :: rs else r :: replaceFirst plot_id r2 rs

/-- `PUT /plots/{plot_id}`: 404 when the id is absent; otherwise all
four mutable fields are overwritten with the request values (the id is
kept) and the updated row is returned. -/
def update_plot (plot_id : Int) (data : PlotCreate) (db : DB) : DB × Except ApiError PlotModel :=
  match db.rows.find? (fun r => r.id == plot_id) with
  | none => (db, Except.error notFound)
  | some plot =>
    let plot2 : PlotModel := ⟨plot.id, data.title, data.work, data.status, data.summary⟩
    (⟨replaceFirst plot_id plot2 db.rows, db.nextId⟩, Except.ok plot2)

/-- Remove the first row carrying the given id (the row `delete_plot`
fetched and passed to `db.delete`); other rows are untouched. -/
def eraseFirst (plot_id : Int) : List PlotModel → List PlotModel
  | [] => []
  | r :: rs => if r.id = plot_id then rs else r :: eraseFirst plot_id rs

/-- Acknowledgement payload of a delete: `{"message": "deleted", "id": plot_id}`. -/
structure DeleteAck where
  message : String
  id : Int
  deriving DecidableEq

/-- `DELETE /plots/{plot_id}`: 404 when the id is absent; otherwise the
fetched row is deleted and the acknowledgement payload returned. -/
def delete_plot (plot_id : Int) (db : DB) : DB × Except ApiError DeleteAck :=
  match db.rows.find? (fun r => r.id == plot_id) with
  | none => (db, Except.error notFound)
  | some _ => (⟨eraseFirst plot_id db.rows, db.nextId⟩, Except.ok ⟨("deleted"), plot_id⟩)

/-- `GET /ping` payload. -/
structure PingReply where
  message : String
  deriving DecidableEq

/-- `GET /ping`. -/
def ping : PingReply := ⟨("pong")⟩

/-- Well-formed database: ids are pairwise distinct (primary key). -/
def WF (db : DB) : Prop := db.rows.Pairwise (fun a b => a.id ≠ b.id)

/-- A per-request SQLAlchemy session handle; `closed` records whether
`db.close()` has run on it. -/
structure Session where
  closed : Bool
  deriving DecidableEq

/-- `SessionLocal()`: a freshly acquired, open handle. -/
def SessionLocal : Session := ⟨false⟩

/-- `db.close()`. -/
def Session.close (_s : Session) : Session := ⟨true⟩

/-- The `get_db` dependency: acquire a handle, yield it to the handler
body (which returns normally or raises, i.e. produces `Except`), and
run `db.close()` in the `finally` block — after the body on both the
success and the error path. -/
def get_db_run {α : Type} (body : DB → DB × Except ApiError α) (db : DB) :
    (DB × Except ApiError α) × Session :=
  let s := SessionLocal
  let r := body db
  (r, s.close)

/-- One incoming HTTP request to any endpoint of the app. -/
inductive Request where
  | pingReq
  | listPlots (work status q : Option String)
  | getPlot (plot_id : Int)
  | createPlot (data : PlotCreate)
  | updatePlot (plot_id : Int) (data : PlotCreate)
  | deletePlot (plot_id : Int)

/-- A successful response body from any endpoint. -/
inductive Response where
  | pong (r : PingReply)
  | plots (l : List PlotModel)
  | plot (p : PlotModel)
  | ack (a : DeleteAck)

/-- Dispatch a request: every endpoint that declares `db: Session =
Depends(get_db)` runs inside `get_db_run`; `/ping` takes no handle
(`none`). The result is the new database state, the response or error,
and the request's session handle (when one was acquired). -/
def handleRequest : Request → DB → DB × Except ApiError Response × Option Session
  | Request.pingReq, db => (db, Except.ok (Response.pong ping), none)
  | Request.listPlots w s q, db =>
    let r := get_db_run (fun d => ((list_plots w s q d).1, Except.ok (Response.plots (list_plots w s q d).2))) db
    (r.1.1, r.1.2, some r.2)
  | Request.getPlot i, db =>
    let r := get_db_run (fun d => ((get_plot i d).1, (get_plot i d).2.map Response.plot)) db
    (r.1.1, r.1.2, some r.2)
  | Request.createPlot data, db =>
    let r := get_db_run (fun d => ((create_plot data d).1, (create_plot data d).2.map Response.plot)) db
    (r.1.1, r.1.2, some r.2)
  | Request.updatePlot i data, db =>
    let r := get_db_run (fun d => ((update_plot i data d).1, (update_plot i data d).2.map Response.plot)) db
    (r.1.1, r.1.2, some r.2)
  | Request.deletePlot i, db =>
    let r := get_db_run (fun d => ((delete_plot i d).1, (delete_plot i d).2.map Response.ack)) db
    (r.1.1, r.1.2, some r.2)

/-- Every handle the request acquired has been released (vacuously true
for `/ping`, which acquires none). -/
def sessionReleased : Option Session → Bool
  | none => true
  | some s => s.closed

/-- The conjunction of the three WHERE conditions `list_plots` builds,
as a predicate on one row (used to state list results pointwise). -/
def rowMatches (work status q : Option String) (r : PlotModel) : Bool :=
  (!truthy work || r.work == work.getD ("")) &&
  (!truthy status || r.status == status.getD ("")) &&
  (!truthy q || ilike r.title (("%") ++ q.getD ("") ++ ("%")) ||
    ilikeOpt r.summary (("%") ++ q.getD ("") ++ ("%")))

/-- Character that is not a SQL LIKE metacharacter. -/
def noMetaChar (c : Char) : Bool := !(c == '%' || c == '_' || c == '\\')

/-- Text free of SQL LIKE metacharacters. -/
def noMeta (l : List Char) : Bool := l.all noMetaChar

/-- Modelled from the spec ("case-insensitive substring search"):
`needle` occurs in `hay` ignoring ASCII case.  This is the spec-side
reading of the `q` filter, to be compared with the code's `ILIKE`. -/
def containsCI (needle hay : String) : Prop :=
  lowerChars needle.data <:+: lowerChars hay.data

instance (needle hay : String) : Decidable (containsCI needle hay) :=
  List.decidableInfix (lowerChars needle.data) (lowerChars hay.data)

instance (db : DB) : Decidable (WF db) :=
  inferInstanceAs (Decidable (db.rows.Pairwise (fun a b : PlotModel => a.id ≠ b.id)))

/-- Sample row used to instantiate witnesses (title from the spec's
search-correctness example). -/
def dragonRow : PlotModel := ⟨1, ("Dragon Rises"), ("w"), ("open"), none⟩

/-- Sample one-row database. -/
def dragonDB : DB := ⟨[dragonRow], 2⟩

/-- Sample update/create body with a null summary. -/
def sampleData : PlotCreate := ⟨("t2"), ("w2"), ("closed"), none⟩

/-- Sample create body with a non-null summary. -/
def sampleCreate : PlotCreate := ⟨("t"), ("w"), ("draft"), some ("m")⟩

/-- Fresh database as created at startup. -/
def emptyDB : DB := ⟨[], 1⟩

/-- Sample two-row database whose rows are stored out of id order. -/
def twoRowDB : DB := ⟨[⟨2, ("b"), ("w"), ("open"), none⟩, ⟨1, ("a"), ("w"), ("open"), none⟩], 3⟩

/-- Sample database holding the single row with id 5 (the spec's
delete-then-get example). -/
def fiveDB : DB := ⟨[⟨5, ("t"), ("w"), ("open"), none⟩], 6⟩

instance : IsTotal PlotModel (fun a b => a.id ≤ b.id) :=
  ⟨fun a b => Int.le_total a.id b.id⟩

instance : IsTrans PlotModel (fun a b => a.id ≤ b.id) :=
  ⟨fun _a _b _c hab hbc => Int.le_trans hab hbc⟩

/-- A `matchStar` match is a match of `f` on some suffix of the text. -/
theorem matchStar_iff (f : List Char → Bool) (t : List Char) :
    matchStar f t = true ↔ ∃ u, u <:+ t ∧ f u = true := by
  induction t with
  | nil =>
    constructor
    · intro h
      exact ⟨[], List.suffix_refl _, h⟩
    · rintro ⟨u, hu, hf⟩
      rw [List.suffix_nil] at hu
      cases hu
      exact hf
  | cons c t ih =>
    rw [show matchStar f (c :: t) = (f (c :: t) || matchStar f t) from rfl, Bool.or_eq_true, ih]
    constructor
    · rintro (h | ⟨u, hu, hf⟩)
      · exact ⟨c :: t, List.suffix_refl _, h⟩
      · exact ⟨u, hu.trans (List.suffix_cons c t), hf⟩
    · rintro ⟨u, hu, hf⟩
      rcases List.suffix_cons_iff.mp hu with rfl | hu2
      · exact Or.inl hf
      · exact Or.inr ⟨u, hu2, hf⟩

/-- One-step unfolding of `likeMatch` at a nonempty pattern. -/
theorem likeMatch_cons (c : Char) (p s : List Char) :
    likeMatch (c :: p) s =
    (if c = '%' then
      matchStar (likeMatch p) s
    else if c = '_' then
      match s with
      | [] => false
      | _ :: s2 => likeMatch p s2
    else if c = '\\' then
      match p with
      | [] => false
      | e :: p2 =>
        match s with
        | [] => false
        | c2 :: s2 => c2 == e && likeMatch p2 s2
    else
      match s with
      | [] => false
      | c2 :: s2 => c2 == c && likeMatch p s2) := by
  rw [likeMatch.eq_def]

/-- Unfolding `likeMatch` at a literal (non-metacharacter) pattern head. -/
theorem likeMatch_cons_lit (c : Char) (p : List Char)
    (h1 : c ≠ '%') (h2 : c ≠ '_') (h3 : c ≠ '\\') (c2 : Char) (s2 : List Char) :
    likeMatch (c :: p) (c2 :: s2) = (c2 == c && likeMatch p s2) := by
  rw [likeMatch_cons, if_neg h1, if_neg h2, if_neg h3]

/-- A literal pattern head never matches the empty text. -/
theorem likeMatch_cons_lit_nil (c : Char) (p : List Char)
    (h1 : c ≠ '%') (h2 : c ≠ '_') (h3 : c ≠ '\\') :
    likeMatch (c :: p) [] = false := by
  rw [likeMatch_cons, if_neg h1, if_neg h2, if_neg h3]

/-- Splitting a metacharacter-free character: it is none of the three. -/
theorem noMetaChar_elim (c : Char) (hc : noMetaChar c = true) :
    c ≠ '%' ∧ c ≠ '_' ∧ c ≠ '\\' := by
  have h2 : (¬c = '%' ∧ ¬c = '_') ∧ ¬c = '\\' := by
    simpa [noMetaChar, not_or] using hc
  exact ⟨h2.1.1, h2.1.2, h2.2⟩

/-- A metacharacter-free pattern followed by `%` matches exactly the
texts it literally begins. -/
theorem likeMatch_lit_percent (l : List Char) (hl : noMeta l = true) (t : List Char) :
    likeMatch (l ++ [('%' : Char)]) t = true ↔ l <+: t := by
  induction l generalizing t with
  | nil =>
    rw [List.nil_append]
    rw [likeMatch_cons, if_pos rfl, matchStar_iff]
    constructor
    · intro _
      exact List.nil_prefix
    · intro _
      exact ⟨[], List.nil_suffix, rfl⟩
  | cons c l ih =>
    simp only [noMeta, List.all_cons, Bool.and_eq_true] at hl
    obtain ⟨hc1, hc2, hc3⟩ := noMetaChar_elim c hl.1
    cases t with
    | nil =>
      rw [List.cons_append, likeMatch_cons_lit_nil c _ hc1 hc2 hc3]
      simp
    | cons c2 t2 =>
      rw [List.cons_append, likeMatch_cons_lit c _ hc1 hc2 hc3 c2 t2]
      rw [Bool.and_eq_true, beq_iff_eq, ih hl.2, List.cons_prefix_cons]
      constructor
      · rintro ⟨ha, hb⟩
        exact ⟨ha.symm, hb⟩
      · rintro ⟨ha, hb⟩
        exact ⟨ha.symm, hb⟩

/-- The pattern `%l%` with `l` metacharacter-free matches exactly the
texts containing `l` as a contiguous run. -/
theorem likeMatch_pct_iff_contains (l t : List Char) (hl : noMeta l = true) :
    likeMatch ('%' :: (l ++ [('%' : Char)])) t = true ↔ l <:+: t := by
  rw [likeMatch_cons, if_pos rfl, matchStar_iff]
  constructor
  · rintro ⟨u, hsuf, hm⟩
    exact List.infix_iff_prefix_suffix.mpr ⟨u, (likeMatch_lit_percent l hl u).mp hm, hsuf⟩
  · intro h
    obtain ⟨u, hpre, hsuf⟩ := List.infix_iff_prefix_suffix.mp h
    exact ⟨u, hsuf, (likeMatch_lit_percent l hl u).mpr hpre⟩

/-- Lower-casing keeps a character metacharacter-free. -/
theorem noMetaChar_toLower (c : Char) (h : noMetaChar c = true) :
    noMetaChar (Char.toLower c) = true := by
  by_cases h2 : c.toNat ≥ 65 ∧ c.toNat ≤ 90
  · have h3 : Char.toLower c = Char.ofNat (c.toNat + 32) := by
      unfold Char.toLower
      simp [h2]
    rw [h3]
    obtain ⟨h4, h5⟩ := h2
    revert h4 h5
    generalize c.toNat = n
    intro h4 h5
    interval_cases n <;> decide
  · have h3 : Char.toLower c = c := by
      unfold Char.toLower
      simp [h2]
    rw [h3]
    exact h

/-- Lower-casing keeps text metacharacter-free. -/
theorem noMeta_lower (l : List Char) (h : noMeta l = true) :
    noMeta (lowerChars l) = true := by
  simp only [noMeta, lowerChars, List.all_map, List.all_eq_true, Function.comp] at h ⊢
  intro c hc
  exact noMetaChar_toLower c (h c hc)

/-- Refinement of the `q` filter: when `q` is free of LIKE
metacharacters, the code's `ILIKE '%q%'` is exactly the spec's
case-insensitive substring containment. -/
theorem ilike_eq_containsCI (s q : String) (hq : noMeta q.data = true) :
    (ilike s (("%") ++ q ++ ("%")) = true) ↔ containsCI q s := by
  have hdata : (("%") ++ q ++ ("%")).data = '%' :: (q.data ++ [('%' : Char)]) := by
    simp [String.data_append]
  rw [ilike, hdata]
  have hlow : lowerChars ('%' :: (q.data ++ [('%' : Char)]))
      = '%' :: (lowerChars q.data ++ [('%' : Char)]) := by
    simp [lowerChars, List.map_append, (by decide : Char.toLower '%' = '%')]
  rw [hlow]
  rw [likeMatch_pct_iff_contains _ _ (noMeta_lower _ hq)]
  rfl

/-- Membership in the filtered (un-ordered) row set is membership in
the table plus satisfaction of the built WHERE clause. -/
theorem mem_filteredRows (work status q : Option String) (db : DB) (r : PlotModel) :
    r ∈ filteredRows work status q db ↔ (r ∈ db.rows ∧ rowMatches work status q r = true) := by
  cases hw : truthy work <;> cases hs : truthy status <;> cases hq : truthy q <;>
    simp [filteredRows, rowMatches, hw, hs, hq, List.mem_filter, and_assoc,
      and_left_comm, and_comm]

/-- Membership in a `GET /plots` result is membership in the table plus
satisfaction of the built WHERE clause. -/
theorem mem_list_plots (work status q : Option String) (db : DB) (r : PlotModel) :
    r ∈ (list_plots work status q db).2 ↔ (r ∈ db.rows ∧ rowMatches work status q r = true) := by
  rw [show (list_plots work status q db).2 = sortById (filteredRows work status q db) from rfl]
  rw [sortById, (List.perm_insertionSort _ _).mem_iff]
  exact mem_filteredRows work status q db r

/-- The filtered row set is a sublist of the table. -/
theorem filteredRows_sublist (work status q : Option String) (db : DB) :
    List.Sublist (filteredRows work status q db) db.rows := by
  have step : ∀ (b : Bool) (l : List PlotModel) (p : PlotModel → Bool),
      List.Sublist (if b then l.filter p else l) l := by
    intro b l p
    cases b
    · simp
    · simp [List.filter_sublist]
  exact (step _ _ _).trans ((step _ _ _).trans (step _ _ _))

/-- In a table with pairwise-distinct ids, `filter(id == n).first()`
finds exactly the member row carrying id `n`. -/
theorem find_unique (l : List PlotModel) (n : Int) (r : PlotModel)
    (hpw : l.Pairwise (fun a b => a.id ≠ b.id)) (hmem : r ∈ l) (hid : r.id = n) :
    l.find? (fun x => x.id == n) = some r := by
  induction l with
  | nil => cases hmem
  | cons x xs ih =>
    rw [List.pairwise_cons] at hpw
    rcases List.mem_cons.mp hmem with rfl | hmem2
    · have hb : (r.id == n) = true := by simp [hid]
      simp only [List.find?, hb]
    · have hb : (x.id == n) = false := by
        rw [beq_eq_false_iff_ne, ← hid]
        exact hpw.1 r hmem2
      simp only [List.find?, hb]
      exact ih hpw.2 hmem2

/-- With pairwise-distinct ids, replacing the first row carrying id `n`
is replacing every row carrying id `n`: all other rows are unchanged. -/
theorem replaceFirst_eq_map (l : List PlotModel) (n : Int) (r2 : PlotModel)
    (hpw : l.Pairwise (fun a b => a.id ≠ b.id)) :
    replaceFirst n r2 l = l.map (fun x => if x.id = n then r2 else x) := by
  induction l with
  | nil => rfl
  | cons x xs ih =>
    rw [List.pairwise_cons] at hpw
    by_cases hx : x.id = n
    · simp only [replaceFirst, List.map_cons, if_pos hx]
      have hrest : ∀ a ∈ xs, (if a.id = n then r2 else a) = a := by
        intro a ha
        rw [if_neg]
        intro h
        exact hpw.1 a ha (hx.trans h.symm)
      rw [List.map_congr_left hrest]
      simp
    · simp only [replaceFirst, List.map_cons, if_neg hx]
      rw [ih hpw.2]

/-- With pairwise-distinct ids, deleting the first row carrying id `n`
is deleting every row carrying id `n`: all other rows are unchanged. -/
theorem eraseFirst_eq_filter (l : List PlotModel) (n : Int)
    (hpw : l.Pairwise (fun a b => a.id ≠ b.id)) :
    eraseFirst n l = l.filter (fun x => !(x.id == n)) := by
  induction l with
  | nil => rfl
  | cons x xs ih =>
    rw [List.pairwise_cons] at hpw
    by_cases hx : x.id = n
    · simp only [eraseFirst, if_pos hx, List.filter_cons]
      rw [if_neg (by simp [hx])]
      rw [List.filter_eq_self.mpr]
      intro a ha
      simp only [Bool.not_eq_true']
      rw [beq_eq_false_iff_ne]
      intro h
      exact hpw.1 a ha (hx.trans h.symm)
    · simp only [eraseFirst, if_neg hx, List.filter_cons]
      rw [if_pos (by simp [hx]), ih hpw.2]

/-- A present, nonempty query parameter is truthy. -/
theorem truthy_some (s : String) (h : s ≠ ("")) : truthy (some s) = true := by
  cases he : s.isEmpty with
  | true => exact absurd ((String.isEmpty_iff s).mp he) h
  | false => simp [truthy, he]

/-- The work-filter conjunct agrees with exact equality on a provided
nonempty value, and is vacuous on an absent one. -/
theorem workClause_iff (work : Option String) (r : PlotModel)
    (hw : ∀ s, work = some s → s ≠ ("")) :
    ((!truthy work || r.work == work.getD ("")) = true) ↔
      (∀ w, work = some w → r.work = w) := by
  cases work with
  | none => simp [truthy]
  | some w =>
    have h2 : truthy (some w) = true := truthy_some w (hw w rfl)
    simp [h2]

/-- The status-filter conjunct agrees with exact equality on a provided
nonempty value, and is vacuous on an absent one. -/
theorem statusClause_iff (status : Option String) (r : PlotModel)
    (hs : ∀ s, status = some s → s ≠ ("")) :
    ((!truthy status || r.status == status.getD ("")) = true) ↔
      (∀ s2, status = some s2 → r.status = s2) := by
  cases status with
  | none => simp [truthy]
  | some s2 =>
    have h2 : truthy (some s2) = true := truthy_some s2 (hs s2 rfl)
    simp [h2]

/-- The q-filter conjunct agrees with case-insensitive substring
containment in title or summary whenever the provided q is nonempty and
free of LIKE metacharacters. -/
theorem qClause_iff (q : Option String) (r : PlotModel)
    (hq : ∀ s, q = some s → (s ≠ ("") ∧ noMeta s.data = true)) :
    ((!truthy q || ilike r.title (("%") ++ q.getD ("") ++ ("%")) ||
        ilikeOpt r.summary (("%") ++ q.getD ("") ++ ("%"))) = true) ↔
      (∀ s2, q = some s2 →
        (containsCI s2 r.title ∨ ∃ t, r.summary = some t ∧ containsCI s2 t)) := by
  cases q with
  | none => simp [truthy]
  | some s2 =>
    obtain ⟨hne, hnm⟩ := hq s2 rfl
    have ht : truthy (some s2) = true := truthy_some s2 hne
    simp only [ht, Option.getD_some, Bool.not_true, Bool.false_or, Bool.or_eq_true]
    rw [ilike_eq_containsCI r.title s2 hnm]
    constructor
    · rintro (h | h)
      · intro s3 hs3
        cases hs3
        exact Or.inl h
      · intro s3 hs3
        cases hs3
        cases hsum : r.summary with
        | none =>
          rw [hsum] at h
          simp [ilikeOpt] at h
        | some t =>
          rw [hsum] at h
          simp only [ilikeOpt] at h
          exact Or.inr ⟨t, rfl, (ilike_eq_containsCI t s2 hnm).mp h⟩
    · intro h
      rcases h s2 rfl with h2 | ⟨t, hsum, h2⟩
      · exact Or.inl h2
      · right
        rw [hsum]
        simp only [ilikeOpt]
        exact (ilike_eq_containsCI t s2 hnm).mpr h2

/-- Claim C1: for every valid create request the handler inserts and
commits the row, but then evaluates `return plotF` — a reference to an
undefined name — so every create request surfaces a `NameError`
(HTTP 500) and never the newly created Plot record the claim (and the
spec's intended behavior) calls for. -/
theorem C1_create_raises_nameError (data : PlotCreate) (db : DB) :
    (create_plot data db).2 = Except.error (ApiError.nameError ("plotF")) := rfl

/-- Claim C2 fails as stated: with the single stored plot (id 1, title
"ab", work "w", status "open", summary null) and the list request
`q = "_"`, the plot appears in the result even though neither its title
nor its summary contains "_" as a case-insensitive substring — in the
pattern `%_%` the underscore is a LIKE wildcard matching any single
character. -/
theorem C2_counterexample :
    (⟨1, ("ab"), ("w"), ("open"), none⟩ : PlotModel)
      ∈ (list_plots none none (some ("_")) ⟨[⟨1, ("ab"), ("w"), ("open"), none⟩], 2⟩).2 ∧
    ¬ containsCI ("_") ("ab") ∧
    (⟨1, ("ab"), ("w"), ("open"), none⟩ : PlotModel).summary = none := by
  decide

/-- Claim C2 (amended): for every list request whose provided filter
values are nonempty and whose provided q contains none of the SQL LIKE
metacharacters `%`, `_`, `\`, a stored plot appears in the result iff
it satisfies every provided filter: work equals the given work exactly,
status equals the given status exactly, and the title or the (non-null)
summary contains q as a case-insensitive substring. -/
theorem C2_filter_correct (work status q : Option String) (db : DB) (r : PlotModel)
    (hw : ∀ s, work = some s → s ≠ (""))
    (hs : ∀ s, status = some s → s ≠ (""))
    (hq : ∀ s, q = some s → (s ≠ ("") ∧ noMeta s.data = true)) :
    r ∈ (list_plots work status q db).2 ↔
      (r ∈ db.rows ∧
       ((∀ w, work = some w → r.work = w) ∧
        (∀ s2, status = some s2 → r.status = s2) ∧
        (∀ s2, q = some s2 →
          (containsCI s2 r.title ∨ ∃ t, r.summary = some t ∧ containsCI s2 t)))) := by
  rw [mem_list_plots]
  apply and_congr_right
  intro _
  rw [show rowMatches work status q r =
      ((!truthy work || r.work == work.getD ("")) &&
       (!truthy status || r.status == status.getD ("")) &&
       (!truthy q || ilike r.title (("%") ++ q.getD ("") ++ ("%")) ||
        ilikeOpt r.summary (("%") ++ q.getD ("") ++ ("%")))) from rfl]
  rw [Bool.and_eq_true, Bool.and_eq_true]
  rw [workClause_iff work r hw, statusClause_iff status r hs, qClause_iff q r hq]
  rw [and_assoc]

/-- Claim C2 witness: the spec's search-correctness example — the plot
titled "Dragon Rises" and the query `q = "dragon"`. -/
theorem C2_filter_correct_witness :
    dragonRow ∈ (list_plots none none (some ("dragon")) dragonDB).2 ↔
      (dragonRow ∈ dragonDB.rows ∧
       ((∀ w, (none : Option String) = some w → dragonRow.work = w) ∧
        (∀ s2, (none : Option String) = some s2 → dragonRow.status = s2) ∧
        (∀ s2, (some ("dragon") : Option String) = some s2 →
          (containsCI s2 dragonRow.title ∨ ∃ t, dragonRow.summary = some t ∧ containsCI s2 t)))) :=
  C2_filter_correct none none (some ("dragon")) dragonDB dragonRow
    (by intro s h2; cases h2) (by intro s h2; cases h2)
    (by intro s h2; cases h2; exact ⟨by decide, by decide⟩)

/-- Claim C3: on a database with pairwise-distinct ids, every list
result is sorted in strictly ascending id order, its members are
exactly the stored rows satisfying the built WHERE clause, and when no
stored row matches, the result is the empty sequence (a value, not an
error). -/
theorem C3_list_sorted (work status q : Option String) (db : DB) (hwf : WF db) :
    ((list_plots work status q db).2.Pairwise (fun a b => a.id < b.id)) ∧
    (∀ r, r ∈ (list_plots work status q db).2 ↔
      (r ∈ db.rows ∧ rowMatches work status q r = true)) ∧
    ((∀ r ∈ db.rows, rowMatches work status q r = false) →
      (list_plots work status q db).2 = []) := by
  refine ⟨?_, fun r => mem_list_plots work status q db r, ?_⟩
  · have hperm : List.Perm (sortById (filteredRows work status q db))
        (filteredRows work status q db) := List.perm_insertionSort _ _
    have hsorted : List.Pairwise (fun a b : PlotModel => a.id ≤ b.id)
        (sortById (filteredRows work status q db)) := List.sorted_insertionSort _ _
    have hne0 : (filteredRows work status q db).Pairwise (fun a b => a.id ≠ b.id) :=
      List.Pairwise.sublist (filteredRows_sublist work status q db) hwf
    have hne : (sortById (filteredRows work status q db)).Pairwise
        (fun a b => a.id ≠ b.id) :=
      (List.Perm.pairwise_iff (fun h => Ne.symm h) hperm).mpr hne0
    exact (List.Pairwise.and hsorted hne).imp (fun h => lt_of_le_of_ne h.1 h.2)
  · intro hnone
    rw [List.eq_nil_iff_forall_not_mem]
    intro r hr
    obtain ⟨h1, h2⟩ := (mem_list_plots work status q db r).mp hr
    rw [hnone r h1] at h2
    exact Bool.false_ne_true h2

/-- Claim C3 witness: two rows stored out of id order, no filters. -/
theorem C3_list_sorted_witness :
    ((list_plots none none none twoRowDB).2.Pairwise (fun a b => a.id < b.id)) ∧
    (∀ r, r ∈ (list_plots none none none twoRowDB).2 ↔
      (r ∈ twoRowDB.rows ∧ rowMatches none none none r = true)) ∧
    ((∀ r ∈ twoRowDB.rows, rowMatches none none none r = false) →
      (list_plots none none none twoRowDB).2 = []) :=
  C3_list_sorted none none none twoRowDB (by decide)

/-- Claim C4: when no stored row carries the requested id, get, update
and delete all fail with exactly the NotFound error —
`HTTPException(404, "Plot not found")` — and with no other error kind. -/
theorem C4_notFound_on_absent (db : DB) (n : Int) (data : PlotCreate)
    (habs : ∀ r ∈ db.rows, r.id ≠ n) :
    (get_plot n db).2 = Except.error notFound ∧
    (update_plot n data db).2 = Except.error notFound ∧
    (delete_plot n db).2 = Except.error notFound := by
  have hfind : db.rows.find? (fun x => x.id == n) = none := by
    rw [List.find?_eq_none]
    intro x hx
    exact fun h => habs x hx (by simpa using h)
  refine ⟨?_, ?_, ?_⟩ <;> simp [get_plot, update_plot, delete_plot, hfind]

/-- Claim C4 witness: id 2 is absent from the one-row database. -/
theorem C4_notFound_on_absent_witness :
    (get_plot 2 dragonDB).2 = Except.error notFound ∧
    (update_plot 2 sampleData dragonDB).2 = Except.error notFound ∧
    (delete_plot 2 dragonDB).2 = Except.error notFound :=
  C4_notFound_on_absent dragonDB 2 sampleData (by decide)

/-- Claim C5: updating a stored id overwrites exactly the four mutable
fields with the request values (summary becoming null when the request
carries null), keeps the id, leaves every other row untouched, and
returns the updated record. -/
theorem C5_update_full_replace (db : DB) (n : Int) (data : PlotCreate) (r : PlotModel)
    (hwf : WF db) (hmem : r ∈ db.rows) (hid : r.id = n) :
    (update_plot n data db).2
      = Except.ok ⟨n, data.title, data.work, data.status, data.summary⟩ ∧
    (update_plot n data db).1.rows
      = db.rows.map (fun x => if x.id = n then
          (⟨n, data.title, data.work, data.status, data.summary⟩ : PlotModel) else x) := by
  have hfind := find_unique db.rows n r hwf hmem hid
  constructor
  · simp only [update_plot, hfind]
    rw [hid]
  · simp only [update_plot, hfind]
    rw [hid, replaceFirst_eq_map db.rows n _ hwf]

/-- Claim C5 witness: overwrite the sample row, setting summary null. -/
theorem C5_update_full_replace_witness :
    (update_plot 1 sampleData dragonDB).2
      = Except.ok ⟨1, sampleData.title, sampleData.work, sampleData.status, sampleData.summary⟩ ∧
    (update_plot 1 sampleData dragonDB).1.rows
      = dragonDB.rows.map (fun x => if x.id = 1 then
          (⟨1, sampleData.title, sampleData.work, sampleData.status, sampleData.summary⟩ : PlotModel) else x) :=
  C5_update_full_replace dragonDB 1 sampleData dragonRow (by decide) (by decide) (by decide)

/-- Claim C6: the round-trip fails at its first step — the create
response is the `NameError` raised by `return plotF`, not a record —
although the row itself is committed and a subsequent get by the
assigned id returns it with exactly the submitted field values. -/
theorem C6_roundtrip_broken :
    (create_plot sampleCreate emptyDB).2 = Except.error (ApiError.nameError ("plotF")) ∧
    (get_plot 1 ((create_plot sampleCreate emptyDB).1)).2
      = Except.ok ⟨1, sampleCreate.title, sampleCreate.work, sampleCreate.status,
          sampleCreate.summary⟩ :=
  ⟨rfl, rfl⟩

/-- Claim C7: deleting a stored id returns the acknowledgement payload
with that id, removes exactly the rows carrying that id (one row, by
primary-key uniqueness) while keeping all others, and a subsequent get
of the same id yields NotFound. -/
theorem C7_delete_removes (db : DB) (n : Int) (r : PlotModel)
    (hwf : WF db) (hmem : r ∈ db.rows) (hid : r.id = n) :
    (delete_plot n db).2 = Except.ok ⟨("deleted"), n⟩ ∧
    (delete_plot n db).1.rows = db.rows.filter (fun x => !(x.id == n)) ∧
    (get_plot n ((delete_plot n db).1)).2 = Except.error notFound := by
  have hfind := find_unique db.rows n r hwf hmem hid
  have hrows : (delete_plot n db).1.rows = db.rows.filter (fun x => !(x.id == n)) := by
    simp only [delete_plot, hfind]
    exact eraseFirst_eq_filter db.rows n hwf
  refine ⟨?_, hrows, ?_⟩
  · simp only [delete_plot, hfind]
  · have hfind2 : ((delete_plot n db).1.rows.find? (fun x => x.id == n)) = none := by
      rw [hrows, List.find?_eq_none]
      intro x hx
      have hx2 := (List.mem_filter.mp hx).2
      simp only [Bool.not_eq_true'] at hx2
      simp [hx2]
    simp [get_plot, hfind2]

/-- Claim C7 witness: the spec's delete-then-get example with id 5. -/
theorem C7_delete_removes_witness :
    (delete_plot 5 fiveDB).2 = Except.ok ⟨("deleted"), 5⟩ ∧
    (delete_plot 5 fiveDB).1.rows = fiveDB.rows.filter (fun x => !(x.id == 5)) ∧
    (get_plot 5 ((delete_plot 5 fiveDB).1)).2 = Except.error notFound :=
  C7_delete_removes fiveDB 5 ⟨5, ("t"), ("w"), ("open"), none⟩ (by decide) (by decide) (by decide)

/-- Claim C8: listing is read-only — it returns the database unchanged —
so running the same filtered list twice with no intervening writes
yields the same ordered result sequence both times. -/
theorem C8_list_idempotent (work status q : Option String) (db : DB) :
    (list_plots work status q db).1 = db ∧
    (list_plots work status q ((list_plots work status q db).1)).2
      = (list_plots work status q db).2 :=
  ⟨rfl, rfl⟩

/-- Claim C9: for every request to any endpoint and every database
state, the per-request handle (when the endpoint acquires one through
`get_db`) has been closed by the time the request completes — the
`finally` clause runs after the handler body on the success path and on
every error path, including the NotFound paths and create's NameError
path. -/
theorem C9_handle_released (req : Request) (db : DB) :
    sessionReleased (handleRequest req db).2.2 = true := by
  cases req <;> rfl

/-- Claim C10: a filter supplied as the empty string is falsy in the
handler's `if` guards, so it is not applied: listing with an empty
work, status or q behaves exactly as listing with that filter absent. -/
theorem C10_empty_filters_ignored (work status q : Option String) (db : DB) :
    list_plots (some ("")) status q db = list_plots none status q db ∧
    list_plots work (some ("")) q db = list_plots work none q db ∧
    list_plots work status (some ("")) db = list_plots work status none db :=
  ⟨rfl, rfl, rfl⟩

end NovelSite
